import Mathlib

/-!
Verification of the terminal session proxy in cluster-manager/terminal.go.

The Go code operates on byte slices; every byte the program inspects is
ASCII, so bytes are modelled as the corresponding Lean characters and a
byte slice as a List Char.  Faults that would be runtime panics in Go
(index out of range, close of an already-closed channel) are modelled as
the value none of an Option result.
-/

namespace EddCloud

/-- The ASCII open-brace character that classifies an inbound chunk as a
control frame (written via its code point to keep string literals plain). -/
def openBrace : Char := Char.ofNat 123

/-- The six-byte literal that locates the cols field, as compared by
str.sub i (i+6) in handleResize. -/
def colsKey : List Char := String.toList "\"cols\""

/-- The six-byte literal that locates the rows field. -/
def rowsKey : List Char := String.toList "\"rows\""

/-- Does str.sub i (i+6) equal the given six-byte key?  Mirrors the Go
comparison of a six-byte slice against the key literal. -/
def keyAt (s : List Char) (i : Nat) (key : List Char) : Bool :=
  (s.drop i).take 6 == key

/-- The separator-skip loop of handleResize, acting on the suffix of the
input that starts at position j.  The Go condition is, verbatim,
(j < len && s j = space) or (s j = colon): when the bounds check fails the
right disjunct still evaluates s j, an index out of range — modelled by
none on the empty suffix.  On success it returns the suffix at the first
byte that is neither a space nor a colon. -/
def skipSepList : List Char → Option (List Char)
  | [] => none
  | c :: cs => if c = ' ' ∨ c = ':' then skipSepList cs else some (c :: cs)

/-- The digit-accumulation loop of handleResize: num is a Go uint16, so
every step wraps modulo 2^16.  Stops at the first non-digit or at the end
of the input (this loop short-circuits correctly and cannot fault). -/
def parseDigits : List Char → Nat → Nat
  | [], num => num
  | c :: cs, num =>
      if '0' ≤ c ∧ c ≤ '9' then parseDigits cs ((num * 10 + (c.toNat - 48)) % 65536)
      else num

/-- Reference value: the plain decimal value of the leading digit run,
without the 16-bit wrap.  Used only to state what the wrap does. -/
def digitsVal : List Char → Nat → Nat
  | [], num => num
  | c :: cs, num =>
      if '0' ≤ c ∧ c ≤ '9' then digitsVal cs (num * 10 + (c.toNat - 48))
      else num

/-- Value parsed for a key match at position i: the Go code jumps to
j = i + 7, runs the separator-skip loop, then the digit loop.  none models
the out-of-range fault inside the skip loop. -/
def fieldValue (s : List Char) (i : Nat) : Option Nat :=
  match skipSepList (s.drop (i + 7)) with
  | none => none
  | some rest => some (parseDigits rest 0)

/-- Per-field update: a parsed value replaces the current one only when it
is positive (Go: if num gt 0 then assign). -/
def applyField (cur v : Nat) : Nat := if 0 < v then v else cur

/-- One iteration of the scan at index i over the state (cols, rows): the
cols check runs first, then the rows check, exactly as the two sequential
if blocks in the Go loop body.  none models a fault in either field. -/
def scanStep (s : List Char) (i : Nat) (st : Nat × Nat) : Option (Nat × Nat) :=
  match (if keyAt s i colsKey then
           match fieldValue s i with
           | none => none
           | some v => some (applyField st.1 v, st.2)
         else some st) with
  | none => none
  | some st1 =>
      if keyAt s i rowsKey then
        match fieldValue s i with
        | none => none
        | some v => some (st1.1, applyField st1.2 v)
      else some st1

/-- The scan loop: i runs from 0 while i is less than len - 5, i.e. for
exactly len - 5 iterations (rem counts the iterations left). -/
def scanLoop (s : List Char) : Nat → Nat → Nat × Nat → Option (Nat × Nat)
  | _, 0, st => some st
  | i, rem + 1, st =>
      match scanStep s i st with
      | none => none
      | some st2 => scanLoop s (i + 1) rem st2

/-- handleResize from terminal.go: starts from the hardcoded defaults
cols = 80, rows = 24, scans the payload only when it is longer than 10
bytes, and returns the (cols, rows) pair passed to pty.Setsize.  none
models the index-out-of-range panic, which aborts before any resize. -/
def handleResize (data : List Char) : Option (Nat × Nat) :=
  if 10 < data.length then scanLoop data 0 (data.length - 5) (80, 24)
  else some (80, 24)

/-- Size of the pseudo-terminal after handleResize runs on data, given the
previously established geometry (cols, rows).  pty.Setsize overwrites both
axes with the values handleResize computed; the previous geometry is never
consulted by the code, which is why the argument is unused.  none models
the decoder panic (Setsize is never reached). -/
def geometryAfterResize (_prev : Nat × Nat) (data : List Char) : Option (Nat × Nat) :=
  match handleResize data with
  | none => none
  | some g => some g

/-- Observable actions of a session, used to state ordering and framing
properties of runTerminalSession. -/
inductive Ev
  | ptyWrite (data : List Char)
  | resize (cols rows : Nat)
  | wsWrite (data : List Char)
  | setDone
  | closeFault
  | interrupt
  | closeWs
  | waitStreams
  | closePty
  | wsWriteDiag
  deriving DecidableEq

/-- How a copy loop run ended: pending means the supplied schedule ran out
with the loop still alive. -/
inductive LoopExit
  | pending
  | readError
  | writeError
  | panicked
  | doneExit
  deriving DecidableEq

/-- One read outcome of the websocket in the transport-to-device loop:
either an error (including clean EOF) or a chunk, tagged with whether the
subsequent terminal-handle write (if attempted) succeeds. -/
inductive WsStep
  | readErr
  | readChunk (data : List Char) (writeOk : Bool)
  deriving DecidableEq

/-- One iteration outcome in the device-to-transport loop: the select
observes the done channel closed, or the terminal read errors (including
EOF), or a chunk arrives, tagged with whether the websocket write
succeeds. -/
inductive DevStep
  | doneObserved
  | readErr
  | readChunk (data : List Char) (writeOk : Bool)
  deriving DecidableEq

/-- Go channel close applied to the done channel: the argument says
whether the channel is already closed; closing an already-closed channel
panics (none). -/
def closeDone (alreadyClosed : Bool) : Option Bool :=
  if alreadyClosed then none else some true

/-- The transport-to-device goroutine of runTerminalSession, run over a
schedule of websocket read outcomes.  pre says whether the done channel is
already closed at the moment the loop reaches its error branch (the loop
itself never reads the channel, only closes it there).  On a read error
the code closes done, then signals os.Interrupt to the process, then
returns.  A chunk whose first byte is an open brace goes to handleResize
and is never written to the terminal; any other non-empty chunk is written
verbatim, and a failed terminal write ends the loop without touching the
done channel or the process. -/
def wsToPtyLoop (pre : Bool) : List WsStep → List Ev × LoopExit
  | [] => ([], LoopExit.pending)
  | WsStep.readErr :: _ =>
      match closeDone pre with
      | none => ([Ev.closeFault], LoopExit.panicked)
      | some _ => ([Ev.setDone, Ev.interrupt], LoopExit.readError)
  | WsStep.readChunk [] _ :: rest => wsToPtyLoop pre rest
  | WsStep.readChunk (c :: tl) ok :: rest =>
      if c = openBrace then
        match handleResize (c :: tl) with
        | none => ([], LoopExit.panicked)
        | some g => (Ev.resize g.1 g.2 :: (wsToPtyLoop pre rest).1, (wsToPtyLoop pre rest).2)
      else if ok then
        (Ev.ptyWrite (c :: tl) :: (wsToPtyLoop pre rest).1, (wsToPtyLoop pre rest).2)
      else ([Ev.ptyWrite (c :: tl)], LoopExit.writeError)

/-- The device-to-transport goroutine of runTerminalSession, run over a
schedule of terminal read outcomes.  It forwards non-empty chunks to the
websocket; a read error or EOF ends it silently, a websocket write error
ends it after the failed attempt, and in neither case does it touch the
done channel or the process. -/
def ptyToWsLoop : List DevStep → List Ev × LoopExit
  | [] => ([], LoopExit.pending)
  | DevStep.doneObserved :: _ => ([], LoopExit.doneExit)
  | DevStep.readErr :: _ => ([], LoopExit.readError)
  | DevStep.readChunk [] _ :: rest => ptyToWsLoop rest
  | DevStep.readChunk (c :: tl) ok :: rest =>
      if ok then (Ev.wsWrite (c :: tl) :: (ptyToWsLoop rest).1, (ptyToWsLoop rest).2)
      else ([Ev.wsWrite (c :: tl)], LoopExit.writeError)

/-- The shutdown sequence runTerminalSession executes after cmd.Wait
returns: close(done), ws.Close(), wg.Wait(), then the deferred
ptmx.Close() as the function returns.  The argument says whether the
transport-to-device loop already closed done (it does so whenever the
websocket read fails before the process exits).  In that case close(done)
panics; the panic unwinds the function, running only the deferred
ptmx.Close(), so the websocket is never closed and the loops are never
awaited.  The second component records whether the sequence panicked. -/
def sessionCleanup (doneAlreadySet : Bool) : List Ev × Bool :=
  match closeDone doneAlreadySet with
  | none => ([Ev.closeFault, Ev.closePty], true)
  | some _ => ([Ev.setDone, Ev.closeWs, Ev.waitStreams, Ev.closePty], false)

/-- The start of runTerminalSession, up to launching the stream loops: if
pty.Start fails, the code writes a diagnostic line to the websocket,
closes it and returns; otherwise it sets the initial size 80 by 24 and
starts both loops.  The second component records whether the stream loops
were started. -/
def sessionStart (attachOk : Bool) : List Ev × Bool :=
  if attachOk then ([Ev.resize 80 24], true)
  else ([Ev.wsWriteDiag, Ev.closeWs], false)

/-- The digit loop computes the plain decimal value of the digit run,
reduced modulo 2^16, for any starting accumulator already in range. -/
theorem parseDigits_mod (ds : List Char) :
    ∀ n : Nat, parseDigits ds (n % 65536) = digitsVal ds n % 65536 := by
  induction ds with
  | nil => intro n; rfl
  | cons c cs ih =>
      intro n
      by_cases h : '0' ≤ c ∧ c ≤ '9'
      · simp only [parseDigits, digitsVal, if_pos h]
        have e : (n % 65536 * 10 + (c.toNat - 48)) % 65536
            = (n * 10 + (c.toNat - 48)) % 65536 := by omega
        rw [e]
        exact ih (n * 10 + (c.toNat - 48))
      · simp only [parseDigits, digitsVal, if_neg h]

/-- When neither key literal occurs anywhere in the payload, the scan
leaves the state untouched, whatever the index and iteration budget. -/
theorem scanLoop_no_key (s : List Char)
    (hc : ∀ i, keyAt s i colsKey = false) (hr : ∀ i, keyAt s i rowsKey = false) :
    ∀ rem i st, scanLoop s i rem st = some st := by
  intro rem
  induction rem with
  | zero => intro i st; rfl
  | succ rem ih =>
      intro i st
      have hstep : scanStep s i st = some st := by
        simp [scanStep, hc i, hr i]
      simp [scanLoop, hstep, ih i.succ st]

/-- C1, counterexample: the claim says decoding a frame that carries only
cols leaves rows at the session's last known value (here 50); the code
instead resets rows to the hardcoded default 24. -/
theorem resize_partial_frame_overwrites_other_axis :
    geometryAfterResize (100, 50) (String.toList "\x7b\"cols\":132\x7d") = some (132, 24) ∧
    geometryAfterResize (100, 50) (String.toList "\x7b\"cols\":132\x7d") ≠ some (132, 50) := by
  decide

/-- C1, amended: a resize field that is absent or non-positive causes that
axis to be reset to the hardcoded default (80 columns, 24 rows),
regardless of the previously established geometry: a cols-only frame
yields 132 by 24, and a frame with cols 0 and rows 40 yields 80 by 40. -/
theorem resize_fallback_is_hardcoded_default (prev : Nat × Nat) :
    geometryAfterResize prev (String.toList "\x7b\"cols\":132\x7d") = some (132, 24) ∧
    geometryAfterResize prev (String.toList "\x7b\"cols\":0,\"rows\":40\x7d") = some (80, 40) := by
  exact ⟨rfl, rfl⟩

/-- C1, witness: the amended statement applied to the previously
established geometry 100 by 50. -/
theorem resize_fallback_is_hardcoded_default_witness :
    geometryAfterResize (100, 50) (String.toList "\x7b\"cols\":0,\"rows\":40\x7d") = some (80, 40) :=
  (resize_fallback_is_hardcoded_default (100, 50)).2

/-- C2, code bug: the decoder is claimed never to fault, but on a chunk
whose cols key literal ends exactly at the end of the buffer the
separator-skip loop evaluates a byte past the end of the input (the bounds
check guards only the left disjunct of its condition), a runtime fault. -/
theorem decoder_out_of_range_fault :
    handleResize (String.toList "\x7baaaaa\"cols\"") = none ∧
    handleResize (String.toList "\x7b\"cols\"") = some (80, 24) := by
  decide

/-- C4, counterexample: the claim says decoding the empty object is a
complete no-op; the code instead calls Setsize unconditionally, resetting
a previously established 100 by 50 geometry to the defaults 80 by 24. -/
theorem empty_frame_resets_to_default :
    geometryAfterResize (100, 50) (String.toList "\x7b\x7d") = some (80, 24) ∧
    geometryAfterResize (100, 50) (String.toList "\x7b\x7d") ≠ some (100, 50) := by
  decide

/-- C4, amended: decoding an unparsable or malformed payload that does not
fault is not a no-op: the device is resized to the hardcoded defaults 80
by 24 (unchanged only if the geometry already was the default).  This
covers every payload of at most 10 bytes, and every payload in which
neither key literal occurs. -/
theorem malformed_frame_resets_to_default :
    (∀ (prev : Nat × Nat) (data : List Char), data.length ≤ 10 →
        geometryAfterResize prev data = some (80, 24)) ∧
    (∀ (prev : Nat × Nat) (data : List Char),
        (∀ i, keyAt data i colsKey = false) → (∀ i, keyAt data i rowsKey = false) →
        geometryAfterResize prev data = some (80, 24)) := by
  constructor
  · intro prev data h
    have hn : ¬ 10 < data.length := by omega
    simp [geometryAfterResize, handleResize, hn]
  · intro prev data hc hr
    by_cases h : 10 < data.length
    · simp [geometryAfterResize, handleResize, h, scanLoop_no_key data hc hr]
    · simp [geometryAfterResize, handleResize, h]

/-- C4, witness: the amended statement applied to the empty object with a
previously established 100 by 50 geometry. -/
theorem malformed_frame_resets_to_default_witness :
    geometryAfterResize (100, 50) (String.toList "\x7b\x7d") = some (80, 24) :=
  malformed_frame_resets_to_default.1 (100, 50) (String.toList "\x7b\x7d") (by decide)

/-- C9: each run of ASCII digits is accumulated in a Go uint16, so the
parsed value is the decimal value of the run modulo 2^16; in particular
the run 65536 parses to 0, and a frame asking for 65536 columns leaves
cols at the default 80 instead of resizing to 65536. -/
theorem digits_accumulate_mod_uint16 :
    (∀ ds : List Char, parseDigits ds 0 = digitsVal ds 0 % 65536) ∧
    parseDigits (String.toList "65536") 0 = 0 ∧
    handleResize (String.toList "\x7b\"cols\":65536\x7d") = some (80, 24) := by
  refine ⟨?_, by decide, by decide⟩
  intro ds
  have h := parseDigits_mod ds 0
  simpa using h

/-- In a run of the transport-to-device loop entered with the done channel
still open, the done channel gets closed exactly when the run ends on a
websocket read error: no other loop path closes it. -/
theorem wsLoop_setDone_iff : ∀ steps : List WsStep,
    (Ev.setDone ∈ (wsToPtyLoop false steps).1 ↔ (wsToPtyLoop false steps).2 = LoopExit.readError) := by
  intro steps
  induction steps with
  | nil => simp [wsToPtyLoop]
  | cons s rest ih =>
      cases s with
      | readErr => simp [wsToPtyLoop, closeDone]
      | readChunk d ok =>
          cases d with
          | nil => simpa [wsToPtyLoop] using ih
          | cons c tl =>
              by_cases hc : c = openBrace
              · subst hc
                cases hr : handleResize (openBrace :: tl) with
                | none => simp [wsToPtyLoop, hr]
                | some g => simpa [wsToPtyLoop, hr] using ih
              · by_cases ho : ok
                · simpa [wsToPtyLoop, hc, ho] using ih
                · simp [wsToPtyLoop, hc, ho]

/-- A run of the transport-to-device loop that ends on a websocket read
error has also requested interruption of the spawned process. -/
theorem wsLoop_readError_interrupt : ∀ steps : List WsStep,
    (wsToPtyLoop false steps).2 = LoopExit.readError →
    Ev.interrupt ∈ (wsToPtyLoop false steps).1 := by
  intro steps
  induction steps with
  | nil => simp [wsToPtyLoop]
  | cons s rest ih =>
      cases s with
      | readErr => simp [wsToPtyLoop, closeDone]
      | readChunk d ok =>
          cases d with
          | nil => simpa [wsToPtyLoop] using ih
          | cons c tl =>
              by_cases hc : c = openBrace
              · subst hc
                cases hr : handleResize (openBrace :: tl) with
                | none => simp [wsToPtyLoop, hr]
                | some g => simpa [wsToPtyLoop, hr] using ih
              · by_cases ho : ok
                · simpa [wsToPtyLoop, hc, ho] using ih
                · simp [wsToPtyLoop, hc, ho]

/-- The device-to-transport loop never closes the done channel and never
signals the process, on any schedule and any exit path. -/
theorem ptyToWsLoop_no_signal : ∀ steps : List DevStep,
    Ev.setDone ∉ (ptyToWsLoop steps).1 ∧ Ev.interrupt ∉ (ptyToWsLoop steps).1 := by
  intro steps
  induction steps with
  | nil => simp [ptyToWsLoop]
  | cons s rest ih =>
      cases s with
      | doneObserved => simp [ptyToWsLoop]
      | readErr => simp [ptyToWsLoop]
      | readChunk d ok =>
          cases d with
          | nil => simpa [ptyToWsLoop] using ih
          | cons c tl =>
              by_cases ho : ok
              · simp only [ptyToWsLoop, if_pos ho]
                constructor
                · simpa using ih.1
                · simpa using ih.2
              · simp [ptyToWsLoop, ho]

/-- C5: an inbound chunk whose first byte is the open brace contributes no
write to the terminal handle (every terminal write in the run already
comes from the remaining schedule), while a non-empty chunk starting with
any other byte is written verbatim to the terminal handle. -/
theorem brace_chunk_never_forwarded (b ok : Bool) (c : Char) (tl : List Char) (rest : List WsStep) :
    (c = openBrace → ∀ bytes, Ev.ptyWrite bytes ∈ (wsToPtyLoop b (WsStep.readChunk (c :: tl) ok :: rest)).1 →
        Ev.ptyWrite bytes ∈ (wsToPtyLoop b rest).1) ∧
    (c ≠ openBrace → (wsToPtyLoop b (WsStep.readChunk (c :: tl) ok :: rest)).1
        = Ev.ptyWrite (c :: tl) :: (if ok then (wsToPtyLoop b rest).1 else [])) := by
  constructor
  · intro hc bytes hmem
    subst hc
    cases hr : handleResize (openBrace :: tl) with
    | none => simp [wsToPtyLoop, hr] at hmem
    | some g =>
        simp [wsToPtyLoop, hr] at hmem
        exact hmem
  · intro hc
    by_cases ho : ok
    · simp [wsToPtyLoop, hc, ho]
    · simp [wsToPtyLoop, hc, ho]

/-- C5, witness: a one-byte keystroke chunk is forwarded verbatim. -/
theorem brace_chunk_never_forwarded_witness :
    (wsToPtyLoop false [WsStep.readChunk [Char.ofNat 104] true]).1
      = [Ev.ptyWrite [Char.ofNat 104]] := by
  have h := (brace_chunk_never_forwarded false true (Char.ofNat 104) [] []).2 (by decide)
  simpa using h

/-- C7, counterexample: the claim says every transport read error makes
the loop set the termination signal and request interruption; but when
the coordinator has already closed the done channel (the normal
process-exit-first shutdown closes done and then the websocket, making the
pending read fail), the loop's own close of the channel faults and no
interrupt is ever requested. -/
theorem read_error_presignaled_skips_interrupt :
    (wsToPtyLoop true [WsStep.readErr]).1 = [Ev.closeFault] ∧
    (wsToPtyLoop true [WsStep.readErr]).2 = LoopExit.panicked ∧
    Ev.setDone ∉ (wsToPtyLoop true [WsStep.readErr]).1 ∧
    Ev.interrupt ∉ (wsToPtyLoop true [WsStep.readErr]).1 := by
  decide

/-- C7, amended: on a transport read error with the done channel not
already closed, the loop closes it, requests interruption of the process,
and exits; and this is the only loop path that closes the channel (the
close happens in a run exactly when the run ends on a read error).  If the
channel is already closed, the close faults and no interrupt is
requested. -/
theorem read_error_sets_done_and_interrupts (steps : List WsStep) :
    ((wsToPtyLoop false steps).2 = LoopExit.readError ↔ Ev.setDone ∈ (wsToPtyLoop false steps).1) ∧
    ((wsToPtyLoop false steps).2 = LoopExit.readError → Ev.interrupt ∈ (wsToPtyLoop false steps).1) :=
  ⟨(wsLoop_setDone_iff steps).symm, wsLoop_readError_interrupt steps⟩

/-- C7, witness: the amended statement applied to a schedule consisting of
a single failing websocket read. -/
theorem read_error_sets_done_and_interrupts_witness :
    Ev.interrupt ∈ (wsToPtyLoop false [WsStep.readErr]).1 :=
  (read_error_sets_done_and_interrupts [WsStep.readErr]).2 (by decide)

/-- C10: when the device-to-transport loop exits because a websocket write
failed, it has neither closed the done channel nor signalled the spawned
process: the termination signal and the process are untouched by this exit
path (indeed by every path of this loop). -/
theorem write_error_exit_leaves_signal_unchanged (steps : List DevStep) :
    (ptyToWsLoop steps).2 = LoopExit.writeError →
    Ev.setDone ∉ (ptyToWsLoop steps).1 ∧ Ev.interrupt ∉ (ptyToWsLoop steps).1 :=
  fun _ => ptyToWsLoop_no_signal steps

/-- C10, witness: a schedule in which the websocket write of the first
chunk fails. -/
theorem write_error_exit_leaves_signal_unchanged_witness :
    Ev.setDone ∉ (ptyToWsLoop [DevStep.readChunk [Char.ofNat 104] false]).1 ∧
    Ev.interrupt ∉ (ptyToWsLoop [DevStep.readChunk [Char.ofNat 104] false]).1 :=
  write_error_exit_leaves_signal_unchanged [DevStep.readChunk [Char.ofNat 104] false] (by decide)

/-- C3, code bug: the claim (and the spec) say the coordinator's setting
of the termination signal after process exit is idempotent; but the signal
is a Go channel and close of an already-closed channel panics, so when the
transport-to-device loop closed it first (remote client disconnected
before the process exited) the cleanup faults instead of being a safe
second set.  Only the fresh close succeeds. -/
theorem cleanup_double_close_faults :
    (sessionCleanup true).2 = true ∧
    Ev.closeFault ∈ (sessionCleanup true).1 ∧
    Ev.setDone ∉ (sessionCleanup true).1 ∧
    (sessionCleanup false).2 = false := by
  decide

/-- C6, counterexample: in the execution where the transport-to-device
loop already closed the done channel, the cleanup faults on its own close:
the transport is never closed, the stream loops are never awaited, and the
deferred terminal-handle release still runs — so the handle is released
without waiting for the loops, contrary to the claimed ordering. -/
theorem cleanup_presignaled_releases_without_wait :
    Ev.closeWs ∉ (sessionCleanup true).1 ∧
    Ev.waitStreams ∉ (sessionCleanup true).1 ∧
    Ev.closePty ∈ (sessionCleanup true).1 := by
  decide

/-- C6, amended: when the done channel is not already closed, the cleanup
closes the transport strictly before waiting for the stream loops and
releases the terminal handle strictly after that wait; when the loop
already closed the channel, the cleanup panics and the terminal handle is
released without the transport being closed or the loops awaited. -/
theorem cleanup_ordering :
    ((sessionCleanup false).1.indexOf Ev.closeWs < (sessionCleanup false).1.indexOf Ev.waitStreams ∧
     (sessionCleanup false).1.indexOf Ev.waitStreams < (sessionCleanup false).1.indexOf Ev.closePty ∧
     Ev.closeWs ∈ (sessionCleanup false).1 ∧ Ev.waitStreams ∈ (sessionCleanup false).1 ∧
     Ev.closePty ∈ (sessionCleanup false).1) ∧
    ((sessionCleanup true).2 = true ∧ Ev.closeWs ∉ (sessionCleanup true).1 ∧
     Ev.waitStreams ∉ (sessionCleanup true).1) := by
  decide

/-- C8: when acquiring the terminal handle fails, the session start writes
the diagnostic line to the transport, closes the transport, and returns
without starting either stream loop, without resizing and without moving
any data. -/
theorem attach_failure_aborts :
    (sessionStart false).1 = [Ev.wsWriteDiag, Ev.closeWs] ∧
    (sessionStart false).2 = false ∧
    (∀ c r : Nat, Ev.resize c r ∉ (sessionStart false).1) ∧
    (∀ d : List Char, Ev.ptyWrite d ∉ (sessionStart false).1 ∧ Ev.wsWrite d ∉ (sessionStart false).1) := by
  refine ⟨rfl, rfl, ?_, ?_⟩
  · intro c r
    simp [sessionStart]
  · intro d
    constructor <;> simp [sessionStart]

end EddCloud
